import Mathlib

/-!
Verification of the beevik/ntp SNTP client against its specification.

The development shallowly embeds the Go source of the package:

* 64-bit fixed-point NTP timestamps (`ntpTime`, a Q32.32 value held in a
  `uint64`) are embedded as `Nat` values; every place where Go `uint64`
  arithmetic can wrap carries an explicit `% 2 ^ 64`.
* `time.Duration` values (signed 64-bit nanosecond counts) are embedded as
  `Int`.  Within the ranges exercised by the theorems below no Go operation
  overflows `int64`, so plain `Int` arithmetic is exact.
* Go's `/` on signed integers truncates toward zero; it is embedded as
  `Int.tdiv`.  Go's `/` and `%` on unsigned integers coincide with `Nat`
  division and remainder.
* Byte slices (`[]byte`) are embedded as `List Nat`, one entry per byte.
* Functions from the Go standard library (`crypto/md5`, `crypto/sha1`,
  `crypto/sha256`, `crypto/sha512`, `crypto/aes`) are external to the
  repository; they are abstracted as function parameters together with the
  length contracts guaranteed by their Go types (`md5.Sum` returns
  `[16]byte`, `sha256.Sum256` returns `[32]byte`, and so on).
* Fallible Go functions returning `error` are embedded as `Option`-returning
  functions whose `some` payload identifies the error value produced.

The repository source concatenates several historical revisions of
`ntp.go`.  Where a symbol has more than one body, the most recent revision
is embedded under the source name and an older body that differs is
embedded under a `V1` suffix (`rttV1`), with a comment giving the line
ranges of each.
-/

/-! ## Constants (src/ntp.go) -/

/-- Go constant `nanoPerSec = 1000000000` (src/ntp.go:531). -/
def nanoPerSec : Nat := 1000000000

/-- Go constant `defaultNtpVersion = 4` (src/ntp.go:530). -/
def defaultNtpVersion : Int := 4

/-- Go constant `maxPollInterval = (1 << 17) * time.Second` (src/ntp.go:533),
in nanoseconds. -/
def maxPollInterval : Int := ((1 <<< 17) * 1000000000 : Nat)

/-- Go constant `minDispersion = 10 * time.Millisecond` (src/ntp.go:534),
in nanoseconds. -/
def minDispersion : Int := 10 * 1000000

/-- Go constant `maxDispersion = 16 * time.Second` (src/ntp.go:535),
in nanoseconds. -/
def maxDispersion : Int := 16 * 1000000000

/-- Go constant `MaxStratum = 16` (src/ntp.go:507). -/
def MaxStratum : Nat := 16

/-! ## Fixed-point time codec (src/ntp.go:557-595) -/

/-- Go method `ntpTime.Duration` (src/ntp.go:563-567), where the Go type
`ntpTime uint64` (src/ntp.go:559) is a Q32.32 fixed-point count of seconds
since the NTP epoch 1900-01-01T00:00:00Z, embedded as a `Nat` below
`2 ^ 64`:
`sec := (t >> 32) * nanoPerSec; frac := (t & 0xffffffff) * nanoPerSec >> 32;
return Duration(sec + frac)`.  For `t < 2 ^ 64` no `uint64` operation here
can wrap and the result is below `2 ^ 63`, so the `Nat` value is exactly the
Go `time.Duration` in nanoseconds. -/
def ntpTime.Duration (t : Nat) : Nat :=
  (t >>> 32) * nanoPerSec + ((t &&& 0xffffffff) * nanoPerSec) >>> 32

/-- Go function `toNtpTime` (src/ntp.go:577-582) for a time `t` at or after
the NTP epoch, where `nsec` is `uint64(t.Sub(ntpEpoch))`, the number of
nanoseconds between the epoch and `t`:
`sec := nsec / nanoPerSec;
frac := (((nsec - sec*nanoPerSec) << 32) + nanoPerSec - 1) / nanoPerSec;
return ntpTime(sec<<32 | frac)`.
The `sec << 32` shift is the only operation that can wrap in `uint64`, hence
the explicit `% 2 ^ 64`. -/
def toNtpTime (nsec : Nat) : Nat :=
  let sec := nsec / nanoPerSec
  let frac := (((nsec - sec * nanoPerSec) <<< 32) + nanoPerSec - 1) / nanoPerSec
  ((sec <<< 32) % 2 ^ 64) ||| frac

/-! ## Offset / RTT / root-distance / causality engine

`ntpTime.Time()` is `ntpEpoch.Add(t.Duration())`, so a Go difference
`x.Time().Sub(y.Time())` equals the difference of the two `Duration`
values; the functions below use that form directly. -/

/-- Go function `rtt` (src/ntp.go:912-922), the current revision, which
clamps a negative raw round-trip to zero:
`a := dst.Time().Sub(org.Time()); b := xmt.Time().Sub(rec.Time());
rtt := a - b; if rtt < 0 { rtt = 0 }; return rtt`. -/
def rtt (org rec xmt dst : Nat) : Int :=
  let a : Int := (ntpTime.Duration dst : Int) - (ntpTime.Duration org : Int)
  let b : Int := (ntpTime.Duration xmt : Int) - (ntpTime.Duration rec : Int)
  let r := a - b
  if r < 0 then 0 else r

/-- Go function `rtt` as it appears in the earlier revision
(src/ntp.go:404-416), which returns the raw value `(t4-t1) - (t3-t2)`
without clamping.  This is the value `parseTime` (src/ntp.go:382-402) of
that revision feeds into `causalityViolation`. -/
def rttV1 (t1 t2 t3 t4 : Nat) : Int :=
  let a : Int := (ntpTime.Duration t4 : Int) - (ntpTime.Duration t1 : Int)
  let b : Int := (ntpTime.Duration t3 : Int) - (ntpTime.Duration t2 : Int)
  a - b

/-- Go function `offset` (src/ntp.go:924-930; identically at 418-430):
`a := rec.Time().Sub(org.Time()); b := xmt.Time().Sub(dst.Time());
return (a + b) / time.Duration(2)`.  Go `/` on the signed `time.Duration`
truncates toward zero, hence `Int.tdiv`. -/
def offset (org rec xmt dst : Nat) : Int :=
  let a : Int := (ntpTime.Duration rec : Int) - (ntpTime.Duration org : Int)
  let b : Int := (ntpTime.Duration xmt : Int) - (ntpTime.Duration dst : Int)
  Int.tdiv (a + b) 2

/-- Go function `rootDistance` (src/ntp.go:932-950), the current revision:
`totalDelay := rtt + rootDelay;
if totalDelay < minDispersion { totalDelay = minDispersion };
return totalDelay/2 + rootDisp`.
(The earlier revision at src/ntp.go:432-449 instead clamps a negative rtt
to zero and has no `minDispersion` floor.) -/
def rootDistance (rtt rootDelay rootDisp : Int) : Int :=
  let totalDelay := rtt + rootDelay
  let totalDelay := if totalDelay < minDispersion then minDispersion else totalDelay
  Int.tdiv totalDelay 2 + rootDisp

/-- Go function `causalityViolation` (src/ntp.go:451-471):
`violation := rtt / 2;
if offset > 0 { violation -= offset } else { violation += offset };
if violation < 0 { return -violation }; return time.Duration(0)`. -/
def causalityViolation (rtt offset : Int) : Int :=
  let violation := Int.tdiv rtt 2
  let violation := if offset > 0 then violation - offset else violation + offset
  if violation < 0 then -violation else 0

/-! ## Response validation (src/ntp.go:644-730) -/

/-- The distinct `errors.New` values returned by `Response.Validate`
(src/ntp.go:691-730), in source order. -/
inductive ValidateError where
  | kissOfDeath
  | invalidStratum
  | invalidLeapSecond
  | notFresh
  | invalidDispersion
  | invalidTimeReported
deriving DecidableEq

/-- Go struct `Response` (src/ntp.go:644-687).  `time.Time` fields are
embedded as `Int` nanoseconds since the NTP epoch and `time.Duration`
fields as `Int` nanoseconds; `Stratum` is a `uint8` and `Leap` a 2-bit
leap indicator (`LeapNotInSync = 3`). -/
structure Response where
  Time : Int
  RTT : Int
  ClockOffset : Int
  Poll : Int
  Precision : Int
  Stratum : Nat
  ReferenceID : Nat
  ReferenceTime : Int
  RootDelay : Int
  RootDispersion : Int
  Leap : Nat
  RootDistance : Int

/-- Go method `Response.Validate` (src/ntp.go:691-730), the current
revision, with its checks in source order: stratum 0 (kiss of death),
stratum ≥ 16, leap not-in-sync (3), freshness, dispersion, transmit time
before reference time.  `errors.New` results are embedded as `some` of the
corresponding `ValidateError`; a valid response yields `none`.
(The earlier revision at src/ntp.go:209-240 has no stratum-0 rule.) -/
def Response.Validate (r : Response) : Option ValidateError :=
  if r.Stratum = 0 then some ValidateError.kissOfDeath
  else if r.Stratum ≥ MaxStratum then some ValidateError.invalidStratum
  else if r.Leap = 3 then some ValidateError.invalidLeapSecond
  else if r.Time - r.ReferenceTime > maxPollInterval then some ValidateError.notFresh
  else if Int.tdiv r.RootDelay 2 + r.RootDispersion > maxDispersion then
    some ValidateError.invalidDispersion
  else if r.Time < r.ReferenceTime then some ValidateError.invalidTimeReported
  else none

/-! ## Query entry: version gate of `getTime` (src/ntp.go:776-782) -/

/-- The first observable action of Go function `getTime`
(src/ntp.go:776-878).  Its body begins:
`if opt.Version == 0 { opt.Version = defaultNtpVersion };
if opt.Version < 2 || opt.Version > 4 { panic("ntp: invalid version number") }`
and only after that does it resolve the remote server address and touch the
network.  `invalidVersionFailure` is the run-time failure raised by the
second `if`; `resolveRemoteAddress v` records that control reached the
first network-dependent statement with effective protocol version `v`. -/
inductive GetTimeStart where
  | invalidVersionFailure
  | resolveRemoteAddress (version : Int)
deriving DecidableEq

/-- The configuration-checking prefix of `getTime` (src/ntp.go:776-782),
mapping the configured `opt.Version` to what the function does first. -/
def getTimeStart (optVersion : Int) : GetTimeStart :=
  let v := if optVersion = 0 then defaultNtpVersion else optVersion
  if v < 2 ∨ v > 4 then GetTimeStart.invalidVersionFailure
  else GetTimeStart.resolveRemoteAddress v

/-! ## Symmetric-key authentication (src/auth.go) -/

/-- The error values of the authentication module: the single opaque
`ErrAuthFailed` returned by `verifyMAC` for every failure, and
`ErrInvalidAuthKey` returned by `decodeAuthKey`. -/
inductive AuthError where
  | errAuthFailed
  | errInvalidAuthKey
deriving DecidableEq

/-- Go constant `headerSize = 48` (src/auth.go:189). -/
def headerSize : Nat := 48

/-- Go `binary.BigEndian.Uint32` applied to the first four bytes of a
slice. -/
def beUint32 (b : List Nat) : Nat :=
  b.getD 0 0 * 2 ^ 24 + b.getD 1 0 * 2 ^ 16 + b.getD 2 0 * 2 ^ 8 + b.getD 3 0

/-- Go `binary.BigEndian.PutUint32`: the four big-endian bytes of a 32-bit
word. -/
def putBeUint32 (w : Nat) : List Nat :=
  [w / 2 ^ 24 % 2 ^ 8, w / 2 ^ 16 % 2 ^ 8, w / 2 ^ 8 % 2 ^ 8, w % 2 ^ 8]

/-- Go function `xor(dst, src)` (src/auth.go:136-153): reads both 16-byte
blocks as four big-endian `uint32` words, xors them word-wise, and writes
the result back over `dst`.  The embedding returns the 16 bytes written. -/
def xorBlock (dst src : List Nat) : List Nat :=
  putBeUint32 (beUint32 src ^^^ beUint32 dst) ++
    putBeUint32 (beUint32 (src.drop 4) ^^^ beUint32 (dst.drop 4)) ++
    putBeUint32 (beUint32 (src.drop 8) ^^^ beUint32 (dst.drop 8)) ++
    putBeUint32 (beUint32 (src.drop 12) ^^^ beUint32 (dst.drop 12))

/-- Go function `double(dst, src, xor)` (src/auth.go:116-134): the GF(2^128)
doubling step of RFC 4493 subkey generation, performed on four big-endian
`uint32` words with an explicit carry into the reduction constant.  The
`<< 1` shifts wrap in `uint32`, hence the `% 2 ^ 32`. -/
def double (src : List Nat) (x : Nat) : List Nat :=
  let s0 := beUint32 src
  let s1 := beUint32 (src.drop 4)
  let s2 := beUint32 (src.drop 8)
  let s3 := beUint32 (src.drop 12)
  let carry := s0 >>> 31
  let d0 := ((s0 <<< 1) % 2 ^ 32) ||| (s1 >>> 31)
  let d1 := ((s1 <<< 1) % 2 ^ 32) ||| (s2 >>> 31)
  let d2 := ((s2 <<< 1) % 2 ^ 32) ||| (s3 >>> 31)
  let d3 := ((s3 <<< 1) % 2 ^ 32) ^^^ (if carry = 1 then x else 0)
  putBeUint32 d0 ++ putBeUint32 d1 ++ putBeUint32 d2 ++ putBeUint32 d3

/-- Go function `pad(block)` (src/auth.go:110-114): appends a single `0x80`
byte followed by zero bytes, extending a partial block (fewer than 16
bytes) to exactly 16 bytes. -/
def pad (block : List Nat) : List Nat :=
  block ++ (0x80 :: List.replicate (16 - block.length - 1) 0)

/-- The block-chaining loop of `calcCMAC_AES` (src/auth.go:92-95):
`for ; len(payload) > 16; payload = payload[16:] { xor(cmac, payload[:16]);
c.Encrypt(cmac, cmac) }`.  Returns the running `cmac` together with the
remaining (final, at most 16-byte) payload.  `enc` is the `c.Encrypt`
operation of the AES block cipher. -/
def cmacBlocks (enc : List Nat → List Nat) (cmac payload : List Nat) :
    List Nat × List Nat :=
  if _h : 16 < payload.length then
    cmacBlocks enc (enc (xorBlock cmac (payload.take 16))) (payload.drop 16)
  else
    (cmac, payload)
termination_by payload.length
decreasing_by simp only [List.length_drop]; omega

/-- Go function `calcCMAC_AES` (src/auth.go:74-108), the RFC 4493 AES-CMAC
over `payload` keyed by `key`.  The AES cipher obtained from
`aes.NewCipher(key)` is external library code, abstracted as
`aesEncrypt key : block → block` (its Go `Encrypt` always writes exactly
one 16-byte block). -/
def calcCMAC_AES (aesEncrypt : List Nat → List Nat → List Nat)
    (payload key : List Nat) : List Nat :=
  let rb := 0x87
  let k1a := aesEncrypt key (List.replicate 16 0)
  let k1 := double k1a rb
  let k2 := double k1 rb
  let st := cmacBlocks (aesEncrypt key) (List.replicate 16 0) payload
  let cmac :=
    if st.2.length = 16 then xorBlock (xorBlock st.1 st.2) k1
    else xorBlock (xorBlock st.1 (pad st.2)) k2
  aesEncrypt key cmac

/-- Go function `calcDigest_MD5` (src/auth.go:54-57):
`digest := md5.Sum(append(key, payload...)); return digest[:]`.
`md5Sum` abstracts the library hash `md5.Sum`, whose Go type returns
`[16]byte`. -/
def calcDigest_MD5 (md5Sum : List Nat → List Nat) (payload key : List Nat) :
    List Nat :=
  md5Sum (key ++ payload)

/-- Go function `calcDigest_SHA1` (src/auth.go:59-62); `sha1.Sum` returns
`[20]byte`. -/
def calcDigest_SHA1 (sha1Sum : List Nat → List Nat) (payload key : List Nat) :
    List Nat :=
  sha1Sum (key ++ payload)

/-- Go function `calcDigest_SHA256` (src/auth.go:64-67):
`digest := sha256.Sum256(append(key, payload...)); return digest[:20]`.
`sha256.Sum256` returns `[32]byte`; the result is truncated to 20 bytes. -/
def calcDigest_SHA256 (sha256Sum : List Nat → List Nat)
    (payload key : List Nat) : List Nat :=
  (sha256Sum (key ++ payload)).take 20

/-- Go function `calcDigest_SHA512` (src/auth.go:69-72): `sha512.Sum512`
returns `[64]byte`; the result is truncated to 20 bytes. -/
def calcDigest_SHA512 (sha512Sum : List Nat → List Nat)
    (payload key : List Nat) : List Nat :=
  (sha512Sum (key ++ payload)).take 20

/-- One entry of the Go `algorithms` table (src/auth.go:40-52).  Go stores a
function pointer that is `nil` for `AuthNone`; the embedding uses
`Option`. -/
structure authAlgorithm where
  MinKeySize : Nat
  MaxKeySize : Nat
  DigestSize : Nat
  CalcDigest : Option (List Nat → List Nat → List Nat)

/-- Go table `algorithms` (src/auth.go:40-52), indexed by `AuthType`
(`AuthNone = 0`, `AuthMD5 = 1`, `AuthSHA1 = 2`, `AuthSHA256 = 3`,
`AuthSHA512 = 4`, `AuthAES128 = 5`), parameterized by the external library
hash and cipher primitives. -/
def algorithms (md5Sum sha1Sum sha256Sum sha512Sum : List Nat → List Nat)
    (aesEncrypt : List Nat → List Nat → List Nat) : List authAlgorithm :=
  [⟨0, 0, 0, none⟩,
   ⟨4, 32, 16, some (calcDigest_MD5 md5Sum)⟩,
   ⟨4, 32, 20, some (calcDigest_SHA1 sha1Sum)⟩,
   ⟨4, 32, 20, some (calcDigest_SHA256 sha256Sum)⟩,
   ⟨4, 32, 20, some (calcDigest_SHA512 sha512Sum)⟩,
   ⟨16, 16, 16, some (calcCMAC_AES aesEncrypt)⟩]

/-- Go function `verifyMAC` (src/auth.go:186-214).  `digestSize` and
`calcDigest` are the `DigestSize` and (non-nil) `CalcDigest` fields of
`algorithms[opt.Type]`; `keyID` is the `uint32` widening of `opt.KeyID`;
`buf` is the received message.  Mirrors the source exactly:
length check on the trailer first (`remain` is a Go `int`, embedded as
`Int`, and Go `%` on signed ints is `Int.tmod`), then key-identifier
comparison, then digest computation and constant-time comparison
(`subtle.ConstantTimeCompare(a, b) == 1` holds exactly when the two byte
slices are equal, including lengths).  Every failure returns the same
opaque `ErrAuthFailed`. -/
def verifyMAC (digestSize : Nat) (calcDigest : List Nat → List Nat → List Nat)
    (buf : List Nat) (keyID : Nat) (key : List Nat) : Option AuthError :=
  let macLen := 4 + digestSize
  let remain : Int := (buf.length : Int) - (headerSize : Int)
  if remain < (macLen : Int) ∨ Int.tmod remain 4 ≠ 0 then
    some AuthError.errAuthFailed
  else
    let payloadLen := buf.length - macLen
    let mac := buf.drop payloadLen
    if beUint32 (mac.take 4) ≠ keyID then some AuthError.errAuthFailed
    else
      let payload := buf.take payloadLen
      let digest := calcDigest payload key
      if digest = mac.drop 4 then none else some AuthError.errAuthFailed

/-! ## Arithmetic helper lemmas -/

/-- Bitwise or of a value whose low `k` bits are clear with a value below
`2 ^ k` is addition. -/
theorem lor_eq_add_of_lt {k : Nat} : ∀ {a b : Nat}, a % 2 ^ k = 0 → b < 2 ^ k →
    a ||| b = a + b := by
  induction k with
  | zero =>
    intro a b _ hb
    have hb0 : b = 0 := by omega
    subst hb0; simp
  | succ k ih =>
    intro a b ha hb
    obtain ⟨q, hq⟩ := Nat.dvd_of_mod_eq_zero ha
    have hq' : a = 2 * (2 ^ k * q) := by rw [hq]; ring
    have ha2 : (a / 2) % 2 ^ k = 0 := by
      rw [hq', Nat.mul_div_cancel_left _ (by norm_num : 0 < 2)]
      exact Nat.mul_mod_right _ _
    have hb2 : b / 2 < 2 ^ k := by
      have h2 : (2:Nat) ^ (k+1) = 2 * 2 ^ k := by ring
      omega
    have hih := ih ha2 hb2
    have hdiv : (a ||| b) / 2 = a / 2 ||| b / 2 := Nat.or_div_two
    have hmod : ((a ||| b) % 2 = 1) ↔ (a % 2 = 1 ∨ b % 2 = 1) := Nat.or_mod_two_eq_one
    omega

/-- `toNtpTime` written without bit operations. -/
theorem toNtpTime_arith (nsec : Nat) :
    toNtpTime nsec = (nsec / nanoPerSec * 2 ^ 32) % 2 ^ 64 +
      ((nsec % nanoPerSec) * 2 ^ 32 + (nanoPerSec - 1)) / nanoPerSec := by
  show ((nsec / nanoPerSec) <<< 32 % 2 ^ 64) |||
      ((((nsec - nsec / nanoPerSec * nanoPerSec) <<< 32) + nanoPerSec - 1) / nanoPerSec) = _
  rw [Nat.shiftLeft_eq, Nat.shiftLeft_eq]
  rw [lor_eq_add_of_lt (k := 32)]
  · have h1 : nsec - nsec / nanoPerSec * nanoPerSec = nsec % nanoPerSec := by
      unfold nanoPerSec; omega
    rw [h1]
    unfold nanoPerSec
    omega
  · unfold nanoPerSec; omega
  · unfold nanoPerSec; omega

/-- `ntpTime.Duration` written without bit operations. -/
theorem ntpTime.duration_arith (t : Nat) :
    ntpTime.Duration t = (t / 2 ^ 32) * nanoPerSec + ((t % 2 ^ 32) * nanoPerSec) / 2 ^ 32 := by
  show (t >>> 32) * nanoPerSec + ((t &&& 0xffffffff) * nanoPerSec) >>> 32 = _
  have hmask : (0xffffffff : Nat) = 2 ^ 32 - 1 := by norm_num
  rw [hmask, Nat.and_pow_two_sub_one_eq_mod, Nat.shiftRight_eq_div_pow,
    Nat.shiftRight_eq_div_pow]

/-- Decoding an encoded instant recovers it exactly, for any instant whose
seconds-since-epoch fit the 32-bit seconds field. -/
theorem ntpTime.duration_toNtpTime (nsec : Nat) (h : nsec < 2 ^ 32 * nanoPerSec) :
    ntpTime.Duration (toNtpTime nsec) = nsec := by
  rw [ntpTime.duration_arith, toNtpTime_arith]
  unfold nanoPerSec at *
  have h3 : (nsec / 1000000000 * 2 ^ 32) % 2 ^ 64 = nsec / 1000000000 * 2 ^ 32 := by
    omega
  rw [h3]
  have h4 : (nsec / 1000000000 * 2 ^ 32 +
      (nsec % 1000000000 * 2 ^ 32 + (1000000000 - 1)) / 1000000000) / 2 ^ 32 =
      nsec / 1000000000 := by omega
  have h5 : (nsec / 1000000000 * 2 ^ 32 +
      (nsec % 1000000000 * 2 ^ 32 + (1000000000 - 1)) / 1000000000) % 2 ^ 32 =
      (nsec % 1000000000 * 2 ^ 32 + (1000000000 - 1)) / 1000000000 := by omega
  rw [h4, h5]
  omega

/-- The fraction field (low 32 bits) of an encoded timestamp. -/
theorem toNtpTime_frac (nsec : Nat) :
    toNtpTime nsec % 2 ^ 32 =
      ((nsec % nanoPerSec) * 2 ^ 32 + (nanoPerSec - 1)) / nanoPerSec := by
  rw [toNtpTime_arith]
  have hB : ((nsec % nanoPerSec) * 2 ^ 32 + (nanoPerSec - 1)) / nanoPerSec < 2 ^ 32 := by
    unfold nanoPerSec; omega
  have hdvd : (2:Nat) ^ 32 ∣ (nsec / nanoPerSec * 2 ^ 32) % 2 ^ 64 :=
    (Nat.dvd_mod_iff (by norm_num : (2:Nat) ^ 32 ∣ 2 ^ 64)).mpr
      ⟨nsec / nanoPerSec, by ring⟩
  obtain ⟨m, hm⟩ := hdvd
  rw [hm, Nat.mul_add_mod, Nat.mod_eq_of_lt hB]

/-- Go truncated division by two in terms of Euclidean division. -/
theorem tdiv_two_eq (z : Int) : Int.tdiv z 2 = if 0 ≤ z then z / 2 else -((-z) / 2) := by
  rcases le_or_lt 0 z with h | h
  · rw [if_pos h, Int.tdiv_eq_ediv h (by norm_num)]
  · rw [if_neg (not_le.mpr h)]
    have h2 : (0:Int) ≤ -z := by omega
    conv_lhs => rw [← Int.neg_neg z]
    rw [Int.neg_tdiv, Int.tdiv_eq_ediv h2 (by norm_num)]

/-! ## Claim C1: the clock-offset formula and its documented examples -/

/-- Claim C1: for all four fixed-point timestamps T1 (client send), T2
(server receive), T3 (server reply), T4 (client receive), `offset` computes
`((T2 - T1) + (T3 - T4)) / 2` (durations of the decoded instants, truncated
division); and for T1 = now, T2 = now+20s, T3 = now+21s, T4 = now+5s the
result is exactly 18 s, while for T1 = now+101s, T2 = now+102s,
T3 = now+103s, T4 = now+105s it is exactly -0.5 s, for every base instant
`now` that keeps all four encodings inside the 32-bit seconds range. -/
theorem offset_formula_and_examples :
    (∀ t1 t2 t3 t4 : Nat,
      offset t1 t2 t3 t4 =
        Int.tdiv (((ntpTime.Duration t2 : Int) - (ntpTime.Duration t1 : Int)) +
          ((ntpTime.Duration t3 : Int) - (ntpTime.Duration t4 : Int))) 2) ∧
    (∀ now : Nat, now + 105 * nanoPerSec < 2 ^ 32 * nanoPerSec →
      offset (toNtpTime now) (toNtpTime (now + 20 * nanoPerSec))
          (toNtpTime (now + 21 * nanoPerSec)) (toNtpTime (now + 5 * nanoPerSec)) =
        18 * 1000000000 ∧
      offset (toNtpTime (now + 101 * nanoPerSec)) (toNtpTime (now + 102 * nanoPerSec))
          (toNtpTime (now + 103 * nanoPerSec)) (toNtpTime (now + 105 * nanoPerSec)) =
        -(1000000000 / 2)) := by
  constructor
  · intro t1 t2 t3 t4
    simp only [offset]
  · intro now h
    have e0 : ntpTime.Duration (toNtpTime now) = now :=
      ntpTime.duration_toNtpTime _ (by unfold nanoPerSec at *; omega)
    have e5 : ntpTime.Duration (toNtpTime (now + 5 * nanoPerSec)) = now + 5 * nanoPerSec :=
      ntpTime.duration_toNtpTime _ (by unfold nanoPerSec at *; omega)
    have e20 : ntpTime.Duration (toNtpTime (now + 20 * nanoPerSec)) = now + 20 * nanoPerSec :=
      ntpTime.duration_toNtpTime _ (by unfold nanoPerSec at *; omega)
    have e21 : ntpTime.Duration (toNtpTime (now + 21 * nanoPerSec)) = now + 21 * nanoPerSec :=
      ntpTime.duration_toNtpTime _ (by unfold nanoPerSec at *; omega)
    have e101 : ntpTime.Duration (toNtpTime (now + 101 * nanoPerSec)) = now + 101 * nanoPerSec :=
      ntpTime.duration_toNtpTime _ (by unfold nanoPerSec at *; omega)
    have e102 : ntpTime.Duration (toNtpTime (now + 102 * nanoPerSec)) = now + 102 * nanoPerSec :=
      ntpTime.duration_toNtpTime _ (by unfold nanoPerSec at *; omega)
    have e103 : ntpTime.Duration (toNtpTime (now + 103 * nanoPerSec)) = now + 103 * nanoPerSec :=
      ntpTime.duration_toNtpTime _ (by unfold nanoPerSec at *; omega)
    have e105 : ntpTime.Duration (toNtpTime (now + 105 * nanoPerSec)) = now + 105 * nanoPerSec :=
      ntpTime.duration_toNtpTime _ (by unfold nanoPerSec at *; omega)
    constructor
    · have harg : ((now + 20 * nanoPerSec : Nat) : Int) - ((now : Nat) : Int) +
          (((now + 21 * nanoPerSec : Nat) : Int) - ((now + 5 * nanoPerSec : Nat) : Int)) =
          (36000000000 : Int) := by
        unfold nanoPerSec
        push_cast
        ring
      simp only [offset, e0, e5, e20, e21]
      rw [harg]
      decide
    · have harg : ((now + 102 * nanoPerSec : Nat) : Int) - ((now + 101 * nanoPerSec : Nat) : Int) +
          (((now + 103 * nanoPerSec : Nat) : Int) - ((now + 105 * nanoPerSec : Nat) : Int)) =
          (-1000000000 : Int) := by
        unfold nanoPerSec
        push_cast
        ring
      simp only [offset, e101, e102, e103, e105]
      rw [harg]
      decide

/-- Witness for C1 at the concrete base instant `now = 0`. -/
theorem offset_formula_and_examples_witness :
    (0:Nat) + 105 * nanoPerSec < 2 ^ 32 * nanoPerSec ∧
    (offset (toNtpTime 0) (toNtpTime (0 + 20 * nanoPerSec))
        (toNtpTime (0 + 21 * nanoPerSec)) (toNtpTime (0 + 5 * nanoPerSec)) =
      18 * 1000000000 ∧
    offset (toNtpTime (0 + 101 * nanoPerSec)) (toNtpTime (0 + 102 * nanoPerSec))
        (toNtpTime (0 + 103 * nanoPerSec)) (toNtpTime (0 + 105 * nanoPerSec)) =
      -(1000000000 / 2)) :=
  ⟨by unfold nanoPerSec; norm_num,
   offset_formula_and_examples.2 0 (by unfold nanoPerSec; norm_num)⟩

/-! ## Claim C2: round-trip time is clamped to be non-negative -/

/-- Claim C2: for all four fixed-point timestamps, the computed `rtt` is
non-negative, and it equals the raw value `(T4 - T1) - (T3 - T2)` when that
is non-negative and zero when the raw value is negative — that is, it is
the maximum of the raw value and zero. -/
theorem rtt_nonneg_clamped :
    ∀ t1 t2 t3 t4 : Nat, t1 < 2 ^ 64 → t2 < 2 ^ 64 → t3 < 2 ^ 64 → t4 < 2 ^ 64 →
      0 ≤ rtt t1 t2 t3 t4 ∧
      rtt t1 t2 t3 t4 =
        max (((ntpTime.Duration t4 : Int) - (ntpTime.Duration t1 : Int)) -
          ((ntpTime.Duration t3 : Int) - (ntpTime.Duration t2 : Int))) 0 := by
  intro t1 t2 t3 t4 _ _ _ _
  refine ⟨?_, ?_⟩ <;> simp only [rtt] <;> split <;> omega

/-- Witness for C2 at T1 = T2 = T3 = 0 and T4 = 2^32 (one second). -/
theorem rtt_nonneg_clamped_witness :
    0 ≤ rtt 0 0 0 (2 ^ 32) ∧
    rtt 0 0 0 (2 ^ 32) =
      max ((ntpTime.Duration (2 ^ 32) - ntpTime.Duration 0 : Int) -
        (ntpTime.Duration 0 - ntpTime.Duration 0 : Int)) 0 := by
  have h := rtt_nonneg_clamped 0 0 0 (2 ^ 32) (by norm_num) (by norm_num)
    (by norm_num) (by norm_num)
  simpa using h

/-! ## Claim C4: rounding mode of the encoded fraction -/

/-- Round-half-up scaling of a sub-second nanosecond count `f` to 32-bit
fraction units.  Modelled from the spec claim wording: the real value
`f * 2^32 / 10^9` is rounded to the nearest integer, halves upward. -/
def roundHalfUpFrac (f : Nat) : Nat :=
  (f * 2 ^ 32 + nanoPerSec / 2) / nanoPerSec

/-- Counterexample to claim C4: at one nanosecond past the epoch the real
scaled fraction is 4.294967296, which round-half-up takes to 4, but
`toNtpTime` produces fraction field 5 (it rounds up, not to nearest). -/
theorem toNtpTime_not_round_half_up :
    (toNtpTime 1 &&& 0xffffffff) = 5 ∧ roundHalfUpFrac (1 % nanoPerSec) = 4 ∧
    ¬ (toNtpTime 1 &&& 0xffffffff) = roundHalfUpFrac (1 % nanoPerSec) := by
  constructor
  · decide
  · constructor
    · decide
    · decide

/-- Claim C4 as amended: for every time at or after the epoch (`nsec`
nanoseconds after it, any value representable in Go's `uint64`), the
fraction field of `toNtpTime` is the CEILING of the real scaled fraction
`f * 2^32 / 10^9`: it is the least representable unit at or above the real
value.  Halfway values still round upward, but so does every value with a
nonzero remainder, so values below the midpoint round up rather than
down. -/
theorem toNtpTime_frac_is_ceiling :
    ∀ nsec : Nat, nsec < 2 ^ 64 →
      (nsec % nanoPerSec) * 2 ^ 32 ≤ (toNtpTime nsec &&& 0xffffffff) * nanoPerSec ∧
      (toNtpTime nsec &&& 0xffffffff) * nanoPerSec <
        (nsec % nanoPerSec) * 2 ^ 32 + nanoPerSec := by
  intro nsec _
  have hmask : (0xffffffff : Nat) = 2 ^ 32 - 1 := by norm_num
  rw [hmask, Nat.and_pow_two_sub_one_eq_mod, toNtpTime_frac]
  unfold nanoPerSec
  constructor <;> omega

/-- Witness for the amended C4 at `nsec = 1`. -/
theorem toNtpTime_frac_is_ceiling_witness :
    (1 % nanoPerSec) * 2 ^ 32 ≤ (toNtpTime 1 &&& 0xffffffff) * nanoPerSec ∧
    (toNtpTime 1 &&& 0xffffffff) * nanoPerSec <
      (1 % nanoPerSec) * 2 ^ 32 + nanoPerSec :=
  toNtpTime_frac_is_ceiling 1 (by norm_num)

/-! ## Claim C5: encode/decode round trip, once and iterated -/

/-- Claim C5: for every instant within the 64-bit fixed-point range (in
particular every instant whose sub-second component is representable at
32-bit fraction precision), encoding with `toNtpTime` and decoding with
`Time` (epoch + `Duration`) returns the identical instant, and iterating
the decode-of-encode map 100 times still returns it — no cumulative
drift. -/
theorem toNtpTime_roundtrip_stable :
    ∀ nsec : Nat, nsec < 2 ^ 32 * nanoPerSec →
      ntpTime.Duration (toNtpTime nsec) = nsec ∧
      (fun x => ntpTime.Duration (toNtpTime x))^[100] nsec = nsec := by
  intro nsec h
  have h1 : ntpTime.Duration (toNtpTime nsec) = nsec := ntpTime.duration_toNtpTime nsec h
  exact ⟨h1, @Function.iterate_fixed _ (fun x => ntpTime.Duration (toNtpTime x)) nsec h1 100⟩

/-- Witness for C5 at a concrete instant with a non-trivial fraction. -/
theorem toNtpTime_roundtrip_stable_witness :
    ntpTime.Duration (toNtpTime 1234567890123456789) = 1234567890123456789 ∧
    (fun x => ntpTime.Duration (toNtpTime x))^[100] 1234567890123456789 =
      1234567890123456789 :=
  toNtpTime_roundtrip_stable 1234567890123456789 (by unfold nanoPerSec; norm_num)

/-! ## Claim C3: stratum 0 short-circuits validation as kiss-of-death -/

/-- Claim C3: every `Response` with `Stratum = 0` is rejected by `Validate`
with the kiss-of-death error, regardless of every other field (leap
indicator, reference time, root delay, root dispersion, transmit time); the
stratum-0 rule is the first check in the source, so no other rule's error
can be produced for a stratum-0 response. -/
theorem validate_stratum_zero_kiss_of_death :
    ∀ r : Response, r.Stratum = 0 →
      r.Validate = some ValidateError.kissOfDeath := by
  intro r h
  simp [Response.Validate, h]

/-- Witness for C3: a stratum-0 response that also violates the leap,
freshness, dispersion and time-order rules still reports kiss-of-death. -/
theorem validate_stratum_zero_kiss_of_death_witness :
    Response.Validate
      ⟨0, 0, 0, 0, 0, 0, 0, 10 ^ 15, 10 ^ 18, 10 ^ 18, 3, 0⟩ =
      some ValidateError.kissOfDeath :=
  validate_stratum_zero_kiss_of_death
    ⟨0, 0, 0, 0, 0, 0, 0, 10 ^ 15, 10 ^ 18, 10 ^ 18, 3, 0⟩ rfl

/-! ## Claim C6: the root-distance formula -/

/-- Counterexample to claim C6: at rtt = 0, rootDelay = 0, rootDispersion
= 0 the claimed formula gives 0, but `rootDistance` floors the total delay
at `minDispersion` (10 ms) and returns 5 ms. -/
theorem rootDistance_not_plain_formula :
    rootDistance 0 0 0 = 5000000 ∧
    rootDistance 0 0 0 ≠ Int.tdiv ((0:Int) + 0) 2 + 0 := by
  constructor
  · decide
  · decide

/-- Claim C6 as amended: for every rtt, root delay and root dispersion, the
current `rootDistance` (src/ntp.go:932-950) equals
`max(rtt + rootDelay, minDispersion)/2 + rootDispersion`; it agrees with
the claimed `(rtt + rootDelay)/2 + rootDispersion` exactly when
`rtt + rootDelay ≥ 10 ms`.  (The earlier revision at src/ntp.go:432-449
matches the claim as stated.) -/
theorem rootDistance_floored_formula :
    ∀ rtt rootDelay rootDisp : Int,
      rootDistance rtt rootDelay rootDisp =
        Int.tdiv (max (rtt + rootDelay) minDispersion) 2 + rootDisp := by
  intro rtt rootDelay rootDisp
  have hmax : (if rtt + rootDelay < minDispersion then minDispersion
      else rtt + rootDelay) = max (rtt + rootDelay) minDispersion := by
    split <;> omega
  simp only [rootDistance]
  rw [hmax]

/-! ## Claim C7: the causality-violation (minimum-error) bound -/

/-- Counterexample to claim C7: with T1 = T2 = T4 = 0 and T3 the fixed-point
value 5 (which decodes to 1 ns), e0 = 0 and e1 = 1 ns so the claimed bound
is 1 ns, but the value computed through `causalityViolation` from the
derived rtt and offset is 0: the two integer divisions by two each lose the
sub-2 ns remainder. -/
theorem causalityViolation_not_exact_max :
    causalityViolation (rttV1 0 0 5 0) (offset 0 0 5 0) = 0 ∧
    max (max 0 ((ntpTime.Duration 0 : Int) - (ntpTime.Duration 0 : Int)))
        (max 0 ((ntpTime.Duration 5 : Int) - (ntpTime.Duration 0 : Int))) = 1 ∧
    causalityViolation (rttV1 0 0 5 0) (offset 0 0 5 0) ≠
      max (max 0 ((ntpTime.Duration 0 : Int) - (ntpTime.Duration 0 : Int)))
        (max 0 ((ntpTime.Duration 5 : Int) - (ntpTime.Duration 0 : Int))) := by
  refine ⟨by decide, by decide, by decide⟩

/-- Claim C7 as amended: for all four fixed-point timestamps, the bound
computed when building the response — `causalityViolation` applied to the
derived raw rtt and offset (src/ntp.go:382-402, 404-416, 418-430,
451-471) — equals `max(e0, e1)` with `e0 = max(0, T1-T2)` and
`e1 = max(0, T3-T4)` whenever the raw rtt `(T4-T1)-(T3-T2)` is
non-negative or even (in nanoseconds); when the raw rtt is negative and
odd, truncation toward zero makes the result `max(e0, e1) - 1` ns. -/
theorem causalityViolation_max_error_bound :
    ∀ t1 t2 t3 t4 : Nat, t1 < 2 ^ 64 → t2 < 2 ^ 64 → t3 < 2 ^ 64 → t4 < 2 ^ 64 →
      (0 ≤ rttV1 t1 t2 t3 t4 ∨ rttV1 t1 t2 t3 t4 % 2 = 0 →
        causalityViolation (rttV1 t1 t2 t3 t4) (offset t1 t2 t3 t4) =
          max (max 0 ((ntpTime.Duration t1 : Int) - (ntpTime.Duration t2 : Int)))
            (max 0 ((ntpTime.Duration t3 : Int) - (ntpTime.Duration t4 : Int)))) ∧
      (rttV1 t1 t2 t3 t4 < 0 ∧ rttV1 t1 t2 t3 t4 % 2 ≠ 0 →
        causalityViolation (rttV1 t1 t2 t3 t4) (offset t1 t2 t3 t4) =
          max (max 0 ((ntpTime.Duration t1 : Int) - (ntpTime.Duration t2 : Int)))
            (max 0 ((ntpTime.Duration t3 : Int) - (ntpTime.Duration t4 : Int))) - 1) := by
  intro t1 t2 t3 t4 _ _ _ _
  simp only [causalityViolation, rttV1, offset, tdiv_two_eq]
  generalize (ntpTime.Duration t1 : Int) = d1
  generalize (ntpTime.Duration t2 : Int) = d2
  generalize (ntpTime.Duration t3 : Int) = d3
  generalize (ntpTime.Duration t4 : Int) = d4
  constructor <;> intro h <;> split_ifs <;> omega

/-- Witness for the amended C7 at T1 = T2 = T3 = 0, T4 = 2^32 (one
second): the raw rtt is +1 s, so the bound equals max(e0, e1) = 0. -/
theorem causalityViolation_max_error_bound_witness :
    causalityViolation (rttV1 0 0 0 (2 ^ 32)) (offset 0 0 0 (2 ^ 32)) =
      max (max 0 ((ntpTime.Duration 0 : Int) - (ntpTime.Duration 0 : Int)))
        (max 0 ((ntpTime.Duration 0 : Int) - (ntpTime.Duration (2 ^ 32) : Int))) :=
  (causalityViolation_max_error_bound 0 0 0 (2 ^ 32) (by norm_num) (by norm_num)
    (by norm_num) (by norm_num)).1 (Or.inl (by decide))

/-! ## Claim C8: invalid protocol version fails before any network activity -/

/-- Claim C8: for every configured protocol version that is non-zero and
outside 2..4, `getTime` fails at its configuration check — before resolving
the server address, opening a connection or sending a packet.  (In the
source the failure is the run-time abort `panic("ntp: invalid version
number")`, raised by the version check that precedes every network
statement.) -/
theorem getTime_invalid_version_fails_first :
    ∀ v : Int, v ≠ 0 → (v < 2 ∨ v > 4) →
      getTimeStart v = GetTimeStart.invalidVersionFailure := by
  intro v h0 hv
  simp only [getTimeStart, if_neg h0]
  rw [if_pos hv]

/-- Witness for C8 at versions 7 and 1. -/
theorem getTime_invalid_version_fails_first_witness :
    getTimeStart 7 = GetTimeStart.invalidVersionFailure ∧
    getTimeStart 1 = GetTimeStart.invalidVersionFailure :=
  ⟨getTime_invalid_version_fails_first 7 (by decide) (by decide),
   getTime_invalid_version_fails_first 1 (by decide) (by decide)⟩

/-! ## Claim C9: verifyMAC returns one opaque error, length checked first -/

/-- Claim C9: for every received buffer, configured algorithm entry
(`digestSize` and digest function), key identifier and key, `verifyMAC`
returns the one opaque `ErrAuthFailed` in all three failure cases — invalid
trailer length (fewer remaining bytes than key id plus digest, or remaining
length not a multiple of four), key-identifier mismatch, and digest
mismatch.  The length check comes first: on a bad length the result is
`ErrAuthFailed` no matter which digest function is used (none is ever
evaluated).  It succeeds exactly when the length is acceptable, the key id
matches, and the recomputed digest equals the received digest. -/
theorem verifyMAC_single_opaque_error :
    ∀ (digestSize : Nat) (calcA calcB : List Nat → List Nat → List Nat)
      (buf : List Nat) (keyID : Nat) (key : List Nat),
      (((buf.length : Int) - (headerSize : Int) < ((4 + digestSize : Nat) : Int) ∨
          Int.tmod ((buf.length : Int) - (headerSize : Int)) 4 ≠ 0) →
        verifyMAC digestSize calcA buf keyID key = some AuthError.errAuthFailed ∧
        verifyMAC digestSize calcA buf keyID key =
          verifyMAC digestSize calcB buf keyID key) ∧
      (¬ ((buf.length : Int) - (headerSize : Int) < ((4 + digestSize : Nat) : Int) ∨
          Int.tmod ((buf.length : Int) - (headerSize : Int)) 4 ≠ 0) →
        beUint32 ((buf.drop (buf.length - (4 + digestSize))).take 4) ≠ keyID →
        verifyMAC digestSize calcA buf keyID key = some AuthError.errAuthFailed) ∧
      (¬ ((buf.length : Int) - (headerSize : Int) < ((4 + digestSize : Nat) : Int) ∨
          Int.tmod ((buf.length : Int) - (headerSize : Int)) 4 ≠ 0) →
        beUint32 ((buf.drop (buf.length - (4 + digestSize))).take 4) = keyID →
        calcA (buf.take (buf.length - (4 + digestSize))) key ≠
          (buf.drop (buf.length - (4 + digestSize))).drop 4 →
        verifyMAC digestSize calcA buf keyID key = some AuthError.errAuthFailed) ∧
      (verifyMAC digestSize calcA buf keyID key = none ↔
        (¬ ((buf.length : Int) - (headerSize : Int) < ((4 + digestSize : Nat) : Int) ∨
            Int.tmod ((buf.length : Int) - (headerSize : Int)) 4 ≠ 0) ∧
         beUint32 ((buf.drop (buf.length - (4 + digestSize))).take 4) = keyID ∧
         calcA (buf.take (buf.length - (4 + digestSize))) key =
           (buf.drop (buf.length - (4 + digestSize))).drop 4)) := by
  intro ds cA cB buf kid key
  refine ⟨?_, ?_, ?_, ?_⟩
  · intro h
    refine ⟨?_, ?_⟩
    · simp only [verifyMAC]
      rw [if_pos h]
    · simp only [verifyMAC]
      rw [if_pos h, if_pos h]
  · intro hlen hkid
    simp only [verifyMAC]
    rw [if_neg hlen, if_pos hkid]
  · intro hlen hkid hdig
    simp only [verifyMAC]
    rw [if_neg hlen, if_neg (fun hc => hc hkid), if_neg hdig]
  · simp only [verifyMAC]
    split_ifs with h1 h2 h3 <;> simp_all

/-- Witness for C9: a 47-byte buffer is too short to hold the 48-byte
header plus a 20-byte MD5 trailer, so verification fails with the opaque
error for any digest function. -/
theorem verifyMAC_single_opaque_error_witness :
    verifyMAC 16 (fun p k => p ++ k) (List.replicate 47 0) 1 [] =
      some AuthError.errAuthFailed :=
  ((verifyMAC_single_opaque_error 16 (fun p k => p ++ k) (fun _ _ => [])
    (List.replicate 47 0) 1 []).1 (by decide)).1

/-! ## Claim C10: every configured algorithm's digest has its table size -/

/-- Claim C10: for every algorithm other than `AuthNone` — MD5, SHA1,
SHA256, SHA512, AES-128 CMAC, at indices 1 through 5 of the `algorithms`
table — and every payload and key, the digest produced by that entry's
`CalcDigest` has exactly the entry's `DigestSize` bytes (16 for MD5 and
AES-CMAC, 20 for SHA1 and the truncated SHA256/SHA512), given the length
contracts of the Go library primitives. -/
theorem algorithms_digest_sizes :
    ∀ (md5Sum sha1Sum sha256Sum sha512Sum : List Nat → List Nat)
      (aesEncrypt : List Nat → List Nat → List Nat),
      (∀ l, (md5Sum l).length = 16) →
      (∀ l, (sha1Sum l).length = 20) →
      (∀ l, (sha256Sum l).length = 32) →
      (∀ l, (sha512Sum l).length = 64) →
      (∀ k b, (aesEncrypt k b).length = 16) →
      ∀ payload key : List Nat, ∀ i : Nat, 1 ≤ i → i ≤ 5 →
        ∃ f, ((algorithms md5Sum sha1Sum sha256Sum sha512Sum aesEncrypt).getD i
            ⟨0, 0, 0, none⟩).CalcDigest = some f ∧
          (f payload key).length =
            ((algorithms md5Sum sha1Sum sha256Sum sha512Sum aesEncrypt).getD i
              ⟨0, 0, 0, none⟩).DigestSize := by
  intro md5Sum sha1Sum sha256Sum sha512Sum aesEncrypt hmd5 hsha1 hsha256 hsha512 haes
  intro payload key i h1 h5
  interval_cases i
  · exact ⟨_, rfl, show (md5Sum (key ++ payload)).length = 16 from hmd5 _⟩
  · exact ⟨_, rfl, show (sha1Sum (key ++ payload)).length = 20 from hsha1 _⟩
  · refine ⟨_, rfl, ?_⟩
    show ((sha256Sum (key ++ payload)).take 20).length = 20
    rw [List.length_take, hsha256]
    norm_num
  · refine ⟨_, rfl, ?_⟩
    show ((sha512Sum (key ++ payload)).take 20).length = 20
    rw [List.length_take, hsha512]
    norm_num
  · refine ⟨_, rfl, ?_⟩
    show (calcCMAC_AES aesEncrypt payload key).length = 16
    simp [calcCMAC_AES, haes]

/-- Witness for C10 with constant-output stand-ins for the library
primitives, at the AES-CMAC entry. -/
theorem algorithms_digest_sizes_witness :
    ∃ f, ((algorithms (fun _ => List.replicate 16 0) (fun _ => List.replicate 20 0)
        (fun _ => List.replicate 32 0) (fun _ => List.replicate 64 0)
        (fun _ _ => List.replicate 16 0)).getD 5 ⟨0, 0, 0, none⟩).CalcDigest = some f ∧
      (f [] []).length =
        ((algorithms (fun _ => List.replicate 16 0) (fun _ => List.replicate 20 0)
          (fun _ => List.replicate 32 0) (fun _ => List.replicate 64 0)
          (fun _ _ => List.replicate 16 0)).getD 5 ⟨0, 0, 0, none⟩).DigestSize :=
  algorithms_digest_sizes _ _ _ _ _ (fun _ => by simp) (fun _ => by simp)
    (fun _ => by simp) (fun _ => by simp) (fun _ _ => by simp) [] [] 5
    (by norm_num) (by norm_num)
